import Mathlib

/-!
Shallow embedding of `src/install.rs` (toolchain installation and upgrade).

The unit under study is the `InstallMethod` dispatcher: the enum of four
acquisition strategies (Copy, Link, Installer, Dist), the `install` driver that
wraps `run` with notifications and derives an `UpdateStatus`, the `run`
dispatcher with its pre-clear step, the `tar_gz` transactional extraction, and
the standalone `uninstall`.

Collaborators that are part of the repository but not under `src/`
(`utils::remove_dir`, `utils::copy_dir`, `utils::symlink_dir`,
`utils::write_file`, `dist::update_from_dist`, `Components`, `TarGzPackage`,
`Transaction`) are modelled as an environment `Env` of oracle behaviours; where
a claim depends on their semantics the definition is modelled from the spec and
documented as such.

The filesystem state relevant to one install call is a `World`: the content at
the target path (`none` = path absent) and the content of the caller-supplied
update-hash file. Effectful steps return `(result, new world, notifications)`.
-/

/-- Errors are opaque; only identity matters for propagation claims. -/
abbrev Err := String

/-- `dist::Profile` (Minimal / Default / Complete). -/
inductive Profile where
  | minimal
  | default
  | complete
deriving DecidableEq, Repr

/-- Abstract content visible at the target path. Each install strategy leaves a
distinguishable kind of content; `other` stands for arbitrary pre-existing
state. -/
inductive Content where
  | copied (src : String)
  | linked (src : String)
  | extracted (staged : List String)
  | distState (id : Nat)
  | other (id : Nat)
deriving DecidableEq, Repr

/-- The notifications emitted by `install.rs` itself, plus `lower` as the
passthrough of lower-level notifications emitted by collaborators. -/
inductive Notif where
  | updatingToolchain (name : String)
  | installingToolchain (name : String)
  | toolchainDirectory (path name : String)
  | updateHashMatches
  | installedToolchain (name : String)
  | extracting (src path : String)
  | removingDirectory (name path : String)
  | lower (tag : Nat)
deriving DecidableEq, Repr

/-- The filesystem state an install call can observe and mutate: the target
path (`none` when absent) and the update-hash file (`none` when absent). -/
structure World where
  target : Option Content
  hashFile : Option String
deriving DecidableEq, Repr

/-- Modelled from the spec: a `Transaction` accumulates staged file operations
in memory / temp space; nothing is visible at the target path until `commit`.
(`dist::component::Transaction` is not under `src/`.) -/
structure Tx where
  staged : List String
deriving DecidableEq, Repr

/-- Modelled from the spec: `Transaction::new` starts with nothing staged. -/
def Tx.new : Tx := ⟨[]⟩

/-- Modelled from the spec: `Transaction::commit` is the sole durability
boundary — it applies every staged operation to the target path at once. -/
def Tx.commit (tx : Tx) (w : World) : World :=
  { w with target := some (Content.extracted tx.staged) }

/-- The argument record `run` hands to `dist::update_from_dist` (descriptor,
optional profile, update-hash path, flags, old date, extra components and
targets; the download config carries no dispatch logic and lives in the
oracle). -/
structure DistArgs where
  desc : String
  profile : Option Profile
  update_hash : Option String
  force_update : Bool
  allow_downgrade : Bool
  old_date : Option String
  components : List String
  targets : List String
deriving DecidableEq, Repr

/-- Behaviour of the collaborators `install.rs` calls into. Each oracle decides
success/failure and, for the distribution updater, the resulting target
content; the frame of each call (which part of the world it may touch) follows
the spec's interface descriptions. -/
structure Env where
  /-- Modelled from the spec: outcome of `utils::remove_dir` on an existing
  target path (success removes the directory). -/
  removeResult : Except Err Unit
  removeTrace : List Notif
  /-- Outcome of `utils::copy_dir src path` (success materialises a copy of
  `src` at the target). -/
  copyResult : Except Err Unit
  copyTrace : List Notif
  /-- Outcome of `utils::symlink_dir src path`. -/
  linkResult : Except Err Unit
  linkTrace : List Notif
  /-- Outcome of `Components::open` for the install prefix. -/
  componentsOpen : Except Err Unit
  /-- Outcome of `FileReaderWithProgress::new_file` on the source archive. -/
  newFileReader : Except Err Unit
  /-- Outcome of `TarGzPackage::new` over the reader. -/
  newTarGzPackage : Except Err Unit
  /-- `package.components()`: the ordered component list the package exposes. -/
  packageComponents : List String
  /-- Modelled from the spec: `package.install(&installation, &component, None, tx)`
  stages one component into the transaction (no target-path mutation before
  commit) or fails. -/
  pkgInstall : String → Tx → Except Err Tx
  installerTrace : List Notif
  /-- `dist::update_from_dist`: given the passed arguments and the current
  target content, returns `some new_hash` (changed), `none` (no change) or an
  error, together with the target content it leaves behind. -/
  dist : DistArgs → Option Content → Except Err (Option String) × Option Content
  distTrace : List Notif
  /-- Modelled from the spec: outcome of `utils::write_file("update hash", ...)`
  (success persists the hash string; failure leaves the file untouched). -/
  writeFileResult : Except Err Unit
  /-- `toolchain.rustc_version()` as a function of the pre-install target
  content. -/
  rustcVersion : Option Content → String

/-- `Toolchain` handle data used by the `install` driver: name and path. -/
structure ToolchainInfo where
  name : String
  path : String
deriving DecidableEq, Repr

/-- `crate::toolchain::UpdateStatus`. -/
inductive UpdateStatus where
  | installed
  | updated (v : String)
  | unchanged
deriving DecidableEq, Repr

/-- `InstallMethod` from `install.rs`: four strategies with per-variant data.
Handles that carry no dispatch logic (`CustomToolchain`, `temp::Cfg`,
`DownloadCfg`, `DistributableToolchain`) are omitted; `exists'` is the
variant's "toolchain already exists" flag. -/
inductive InstallMethod where
  | copy (src : String)
  | link (src : String)
  | installer (src : String)
  | dist (desc : String) (profile : Profile) (update_hash : Option String)
      (force_update allow_downgrade exists' : Bool)
      (old_date : Option String) (components targets : List String)
deriving DecidableEq, Repr

/-- Modelled from the spec: `utils::remove_dir "install" path` — recursive
directory delete; on a non-existent path it succeeds as a no-op
(`utils::remove_dir` is not under `src/`). -/
def remove_dir (env : Env) (name path : String) (w : World) :
    Except Err Unit × World × List Notif :=
  match w.target with
  | none => (Except.ok (), w, [Notif.removingDirectory name path])
  | some _ =>
    match env.removeResult with
    | Except.ok _ =>
        (Except.ok (), { w with target := none },
          Notif.removingDirectory name path :: env.removeTrace)
    | Except.error e =>
        (Except.error e, w, Notif.removingDirectory name path :: env.removeTrace)

/-- `uninstall(path, notify_handler)`: delegates to
`utils::remove_dir("install", path, notify_handler)`. -/
def uninstall (env : Env) (path : String) (w : World) :
    Except Err Unit × World × List Notif :=
  remove_dir env "install" path w

/-- The `for component in package.components()` loop of `tar_gz`: thread the
transaction through `package.install`, stopping at the first error. -/
def installComponents (env : Env) : List String → Tx → Except Err Tx
  | [], tx => Except.ok tx
  | c :: cs, tx =>
    match env.pkgInstall c tx with
    | Except.error e => Except.error e
    | Except.ok tx' => installComponents env cs tx'

/-- `InstallMethod::tar_gz(src, path, temp_cfg, notify_handler)`: notify
Extracting, open the components ledger, open the source with progress, unpack
it as a tar+gz package, stage every exposed component into a fresh transaction,
and commit only once all are staged. -/
def tar_gz (env : Env) (src path : String) (w : World) :
    Except Err Unit × World × List Notif :=
  let tr := [Notif.extracting src path]
  match env.componentsOpen with
  | Except.error e => (Except.error e, w, tr)
  | Except.ok _ =>
    match env.newFileReader with
    | Except.error e => (Except.error e, w, tr)
    | Except.ok _ =>
      match env.newTarGzPackage with
      | Except.error e => (Except.error e, w, tr ++ env.installerTrace)
      | Except.ok _ =>
        match installComponents env env.packageComponents Tx.new with
        | Except.error e => (Except.error e, w, tr ++ env.installerTrace)
        | Except.ok tx => (Except.ok (), tx.commit w, tr ++ env.installerTrace)

/-- `InstallMethod::run(path, notify_handler)`: pre-clear the target path
(except for Dist and Installer, which own their transition), then execute the
selected strategy and report whether anything changed. -/
def InstallMethod.run (m : InstallMethod) (env : Env) (path : String) (w : World) :
    Except Err Bool × World × List Notif :=
  let pre : Except Err Unit × World × List Notif :=
    if w.target.isSome then
      match m with
      | InstallMethod.dist .. => (Except.ok (), w, [])
      | InstallMethod.installer _ => (Except.ok (), w, [])
      | _ => uninstall env path w
    else (Except.ok (), w, [])
  match pre with
  | (Except.error e, w1, t1) => (Except.error e, w1, t1)
  | (Except.ok _, w1, t1) =>
    match m with
    | InstallMethod.copy src =>
      match env.copyResult with
      | Except.ok _ =>
          (Except.ok true, { w1 with target := some (Content.copied src) },
            t1 ++ env.copyTrace)
      | Except.error e => (Except.error e, w1, t1 ++ env.copyTrace)
    | InstallMethod.link src =>
      match env.linkResult with
      | Except.ok _ =>
          (Except.ok true, { w1 with target := some (Content.linked src) },
            t1 ++ env.linkTrace)
      | Except.error e => (Except.error e, w1, t1 ++ env.linkTrace)
    | InstallMethod.installer src =>
      match tar_gz env src path w1 with
      | (Except.ok _, w2, t2) => (Except.ok true, w2, t1 ++ t2)
      | (Except.error e, w2, t2) => (Except.error e, w2, t1 ++ t2)
    | InstallMethod.dist desc profile uh force allow ex od cs ts =>
      let args : DistArgs :=
        ⟨desc, if ex then none else some profile, uh, force, allow, od, cs, ts⟩
      match env.dist args w1.target with
      | (Except.error e, t') =>
          (Except.error e, { w1 with target := t' }, t1 ++ env.distTrace)
      | (Except.ok (some hash), t') =>
          let w2 : World := { w1 with target := t' }
          match uh with
          | some _ =>
            match env.writeFileResult with
            | Except.ok _ =>
                (Except.ok true, { w2 with hashFile := some hash },
                  t1 ++ env.distTrace)
            | Except.error e => (Except.error e, w2, t1 ++ env.distTrace)
          | none => (Except.ok true, w2, t1 ++ env.distTrace)
      | (Except.ok none, t') =>
          (Except.ok false, { w1 with target := t' }, t1 ++ env.distTrace)

/-- `InstallMethod::install(toolchain)`: read prior existence/version, emit the
updating/installing and directory notifications, run the dispatcher, emit the
post notification and derive the `UpdateStatus`. -/
def InstallMethod.install (m : InstallMethod) (env : Env) (tc : ToolchainInfo)
    (w : World) : Except Err UpdateStatus × World × List Notif :=
  let previous_version : Option String :=
    if w.target.isSome then some (env.rustcVersion w.target) else none
  let n1 : Notif :=
    match previous_version with
    | some _ => Notif.updatingToolchain tc.name
    | none => Notif.installingToolchain tc.name
  let n2 : Notif := Notif.toolchainDirectory tc.path tc.name
  match m.run env tc.path w with
  | (Except.error e, w1, tr) => (Except.error e, w1, n1 :: n2 :: tr)
  | (Except.ok updated, w1, tr) =>
    let n3 : Notif :=
      if !updated then Notif.updateHashMatches
      else Notif.installedToolchain tc.name
    let status : UpdateStatus :=
      match updated, previous_version with
      | true, none => UpdateStatus.installed
      | true, some v => UpdateStatus.updated v
      | false, _ => UpdateStatus.unchanged
    (Except.ok status, w1, n1 :: n2 :: (tr ++ [n3]))

/-- Decidable equality for `Except`, so concrete runs can be checked by
`decide`. -/
instance instDecEqExcept {ε α : Type} [DecidableEq ε] [DecidableEq α] :
    DecidableEq (Except ε α)
  | Except.ok a, Except.ok b =>
    if h : a = b then Decidable.isTrue (congrArg Except.ok h)
    else Decidable.isFalse (fun hc => h (Except.ok.inj hc))
  | Except.ok _, Except.error _ => Decidable.isFalse (fun hc => Except.noConfusion hc)
  | Except.error _, Except.ok _ => Decidable.isFalse (fun hc => Except.noConfusion hc)
  | Except.error e, Except.error f =>
    if h : e = f then Decidable.isTrue (congrArg Except.error h)
    else Decidable.isFalse (fun hc => h (Except.error.inj hc))

/-- Encoding of the profile argument a spy updater observed, as an error
string. -/
def encodeProfileArg : Option Profile → String
  | none => "no-profile"
  | some Profile.minimal => "profile-minimal"
  | some Profile.default => "profile-default"
  | some Profile.complete => "profile-complete"

/-- A spy distribution updater: it fails immediately, reporting which profile
argument the dispatcher handed it (and leaves the target untouched). -/
def spyDist : DistArgs → Option Content → Except Err (Option String) × Option Content :=
  fun a t => (Except.error (encodeProfileArg a.profile), t)

/-- A benign environment where every collaborator succeeds; used to evaluate
theorems at concrete inputs. -/
def demoEnv : Env where
  removeResult := Except.ok ()
  removeTrace := [Notif.lower 0]
  copyResult := Except.ok ()
  copyTrace := [Notif.lower 1]
  linkResult := Except.ok ()
  linkTrace := [Notif.lower 2]
  componentsOpen := Except.ok ()
  newFileReader := Except.ok ()
  newTarGzPackage := Except.ok ()
  packageComponents := ["rustc", "cargo"]
  pkgInstall := fun c tx => Except.ok ⟨tx.staged ++ [c]⟩
  installerTrace := [Notif.lower 3]
  dist := fun _ t => (Except.ok (some "newhash"), t)
  distTrace := [Notif.lower 4]
  writeFileResult := Except.ok ()
  rustcVersion := fun _ => "1.2.0"

/-- `demoEnv` with an updater that signals "no change". -/
def noChangeEnv : Env := { demoEnv with dist := fun _ t => (Except.ok none, t) }

/-- `demoEnv` with a failing directory removal. -/
def removeFailEnv : Env := { demoEnv with removeResult := Except.error "remove failed" }

/-- `demoEnv` with a package whose second component fails to install. -/
def componentFailEnv : Env :=
  { demoEnv with
      pkgInstall := fun c tx =>
        if c = "cargo" then Except.error "cargo failed"
        else Except.ok ⟨tx.staged ++ [c]⟩ }

/-- `demoEnv` with a failing hash-file write. -/
def writeFailEnv : Env := { demoEnv with writeFileResult := Except.error "write failed" }

/-- The status table as the spec states it, as a function of
`(changed, prior_version)`: changed with no prior version is Installed, changed
with prior version V is Updated V, not changed is Unchanged. -/
def specStatus : Bool → Option String → UpdateStatus
  | true, none => UpdateStatus.installed
  | true, some v => UpdateStatus.updated v
  | false, _ => UpdateStatus.unchanged

/-- C7: standalone `uninstall` on a path that does not exist succeeds as a
no-op: it returns `Ok`, leaves the world unchanged, and only emits the
removing-directory notification. -/
theorem uninstall_missing_path_noop (env : Env) (p : String) (hf : Option String) :
    uninstall env p ⟨none, hf⟩
      = (Except.ok (), ⟨none, hf⟩, [Notif.removingDirectory "install" p]) := rfl

/-- C5: whenever a Copy or Link run succeeds, the reported `changed` flag is
`true` — these strategies never report an unchanged result. -/
theorem copy_link_always_changed (env : Env) (src p : String) (w : World) (b : Bool) :
    (((InstallMethod.copy src).run env p w).1 = Except.ok b → b = true)
    ∧ (((InstallMethod.link src).run env p w).1 = Except.ok b → b = true) := by
  constructor <;> intro h <;>
    cases ht : w.target <;>
      cases hr : env.removeResult <;>
        cases hc : env.copyResult <;>
          cases hl : env.linkResult <;>
            simp_all [InstallMethod.run, uninstall, remove_dir]

/-- C5 witness: a successful Copy run on `demoEnv` reports `changed = true`. -/
theorem copy_link_always_changed_witness :
    ((InstallMethod.copy "srcdir").run demoEnv "/tc" ⟨none, none⟩).1 = Except.ok true
    ∧ true = true :=
  ⟨by decide, (copy_link_always_changed demoEnv "srcdir" "/tc" ⟨none, none⟩ true).1 (by decide)⟩

/-- C6: the Dist dispatcher passes a profile to the distribution updater if and
only if the variant's `exists` flag is false; observed through a spy updater
that reports the profile argument it received. -/
theorem dist_profile_only_when_fresh (env : Env) (desc : String) (profile : Profile)
    (uh : Option String) (f a ex : Bool) (od : Option String) (cs ts : List String)
    (p : String) (w : World) :
    ((InstallMethod.dist desc profile uh f a ex od cs ts).run
        { env with dist := spyDist } p w).1
      = Except.error (encodeProfileArg (if ex then none else some profile)) := by
  cases ht : w.target <;> simp [InstallMethod.run, spyDist, ht]

/-- C9: the profile decision reads only the `exists` flag stored in the
variant, not the disk: with `exists = true` no profile is passed even when the
target path is absent, and with `exists = false` the profile is passed even
when the target path is present. -/
theorem dist_profile_ignores_disk (env : Env) (desc : String) (profile : Profile)
    (uh : Option String) (f a : Bool) (od : Option String) (cs ts : List String)
    (p : String) (c : Content) (hf hf' : Option String) :
    ((InstallMethod.dist desc profile uh f a true od cs ts).run
        { env with dist := spyDist } p ⟨none, hf⟩).1
      = Except.error (encodeProfileArg none)
    ∧ ((InstallMethod.dist desc profile uh f a false od cs ts).run
        { env with dist := spyDist } p ⟨some c, hf'⟩).1
      = Except.error (encodeProfileArg (some profile)) := by
  constructor <;> simp [InstallMethod.run, spyDist]

/-- C2: on a successful run, the final status is derived purely from the pair
`(changed, prior_version)`, where the prior version is read from the world
before any mutation: changed with no prior version gives Installed, changed
with prior version V gives Updated V, and not-changed gives Unchanged. -/
theorem install_status_from_changed_and_prior (env : Env) (m : InstallMethod)
    (tc : ToolchainInfo) (w : World) (b : Bool)
    (h : (m.run env tc.path w).1 = Except.ok b) :
    (m.install env tc w).1
      = Except.ok
          (specStatus b
            (if w.target.isSome then some (env.rustcVersion w.target) else none)) := by
  unfold InstallMethod.install
  rcases hr : m.run env tc.path w with ⟨r, w1, tr⟩
  rw [hr] at h
  simp only at h
  subst h
  cases b <;> cases ht : w.target <;> simp [specStatus, ht]

/-- C2 witness: a Copy install into an absent path on `demoEnv` yields
`Installed`. -/
theorem install_status_from_changed_and_prior_witness :
    ((InstallMethod.copy "srcdir").run demoEnv "/tc" ⟨none, none⟩).1 = Except.ok true
    ∧ ((InstallMethod.copy "srcdir").install demoEnv ⟨"stable", "/tc"⟩ ⟨none, none⟩).1
        = Except.ok UpdateStatus.installed :=
  ⟨by decide,
   install_status_from_changed_and_prior demoEnv (InstallMethod.copy "srcdir")
     ⟨"stable", "/tc"⟩ ⟨none, none⟩ true (by decide)⟩

/-- C8: on a successful run, `install` emits exactly: UpdatingToolchain when a
prior version exists (else InstallingToolchain), then the toolchain directory,
then the dispatcher's notifications, and finally InstalledToolchain when
`changed` is true (else UpdateHashMatches). -/
theorem install_notification_order (env : Env) (m : InstallMethod)
    (tc : ToolchainInfo) (w : World) (b : Bool)
    (h : (m.run env tc.path w).1 = Except.ok b) :
    (m.install env tc w).2.2
      = (if w.target.isSome then Notif.updatingToolchain tc.name
         else Notif.installingToolchain tc.name)
        :: Notif.toolchainDirectory tc.path tc.name
        :: ((m.run env tc.path w).2.2
            ++ [if b then Notif.installedToolchain tc.name else Notif.updateHashMatches]) := by
  unfold InstallMethod.install
  rcases hr : m.run env tc.path w with ⟨r, w1, tr⟩
  rw [hr] at h
  simp only at h
  subst h
  cases ht : w.target <;> cases b <;> simp [ht]

/-- C8 witness: updating an existing path via Copy on `demoEnv` emits
updating, directory, the run notifications, then installed — in that order. -/
theorem install_notification_order_witness :
    ((InstallMethod.copy "srcdir").run demoEnv "/tc" ⟨some (Content.other 1), none⟩).1
        = Except.ok true
    ∧ ((InstallMethod.copy "srcdir").install demoEnv ⟨"stable", "/tc"⟩
          ⟨some (Content.other 1), none⟩).2.2
        = [Notif.updatingToolchain "stable", Notif.toolchainDirectory "/tc" "stable",
           Notif.removingDirectory "install" "/tc", Notif.lower 0, Notif.lower 1,
           Notif.installedToolchain "stable"] :=
  ⟨by decide,
   by
    have h := install_notification_order demoEnv (InstallMethod.copy "srcdir")
      ⟨"stable", "/tc"⟩ ⟨some (Content.other 1), none⟩ true (by decide)
    simpa using h⟩

/-- C4: on a Dist run, when the updater returns a new hash and an update-hash
path was supplied, the hash is written to the hash file and `changed = true` is
reported (given the write succeeds); when the updater signals no change,
`changed = false` is reported and the hash file is left untouched. -/
theorem dist_hash_write_on_change_only (env : Env) (desc : String) (profile : Profile)
    (hfPath : String) (uh : Option String) (f a ex : Bool) (od : Option String)
    (cs ts : List String) (p : String) (w : World) (hsh : String) (t t' : Option Content) :
    (env.dist ⟨desc, if ex then none else some profile, some hfPath, f, a, od, cs, ts⟩ w.target
        = (Except.ok (some hsh), t) →
      env.writeFileResult = Except.ok () →
      ((InstallMethod.dist desc profile (some hfPath) f a ex od cs ts).run env p w).1
          = Except.ok true
        ∧ ((InstallMethod.dist desc profile (some hfPath) f a ex od cs ts).run env p w).2.1.hashFile
          = some hsh)
    ∧ (env.dist ⟨desc, if ex then none else some profile, uh, f, a, od, cs, ts⟩ w.target
        = (Except.ok none, t') →
      ((InstallMethod.dist desc profile uh f a ex od cs ts).run env p w).1
          = Except.ok false
        ∧ ((InstallMethod.dist desc profile uh f a ex od cs ts).run env p w).2.1.hashFile
          = w.hashFile) := by
  constructor
  · intro hd hw
    cases ht : w.target <;>
      simp [InstallMethod.run, ht] <;>
      simp [ht] at hd <;>
      simp [hd, hw]
  · intro hd
    cases ht : w.target <;>
      simp [InstallMethod.run, ht] <;>
      simp [ht] at hd <;>
      simp [hd]

/-- C4 witness: on `demoEnv` a Dist run writes "newhash" and reports changed;
on `noChangeEnv` it reports unchanged and leaves the hash file absent. -/
theorem dist_hash_write_on_change_only_witness :
    (((InstallMethod.dist "d" Profile.default (some "hf") false false false none [] []).run
        demoEnv "/p" ⟨none, none⟩).1 = Except.ok true
      ∧ ((InstallMethod.dist "d" Profile.default (some "hf") false false false none [] []).run
          demoEnv "/p" ⟨none, none⟩).2.1.hashFile = some "newhash")
    ∧ (((InstallMethod.dist "d" Profile.default (some "hf") false false false none [] []).run
          noChangeEnv "/p" ⟨none, none⟩).1 = Except.ok false
      ∧ ((InstallMethod.dist "d" Profile.default (some "hf") false false false none [] []).run
          noChangeEnv "/p" ⟨none, none⟩).2.1.hashFile = none) :=
  ⟨(dist_hash_write_on_change_only demoEnv "d" Profile.default "hf" (some "hf")
      false false false none [] [] "/p" ⟨none, none⟩ "newhash" none none).1 rfl rfl,
   (dist_hash_write_on_change_only noChangeEnv "d" Profile.default "hf" (some "hf")
      false false false none [] [] "/p" ⟨none, none⟩ "newhash" none none).2 rfl⟩

/-- C10: on a Dist run where the updater returned a new hash, a hash-file path
was supplied, and the write fails, `run` returns the write error while the
target path already holds the updater's result and the new hash was not
persisted. -/
theorem dist_hash_write_failure_not_atomic (env : Env) (desc : String)
    (profile : Profile) (hfPath : String) (f a ex : Bool) (od : Option String)
    (cs ts : List String) (p : String) (w : World) (hsh : String)
    (t : Option Content) (e : Err)
    (hd : env.dist ⟨desc, if ex then none else some profile, some hfPath, f, a, od, cs, ts⟩ w.target
        = (Except.ok (some hsh), t))
    (hw : env.writeFileResult = Except.error e) :
    ((InstallMethod.dist desc profile (some hfPath) f a ex od cs ts).run env p w).1
        = Except.error e
    ∧ ((InstallMethod.dist desc profile (some hfPath) f a ex od cs ts).run env p w).2.1.target
        = t
    ∧ ((InstallMethod.dist desc profile (some hfPath) f a ex od cs ts).run env p w).2.1.hashFile
        = w.hashFile := by
  cases ht : w.target <;>
    simp [InstallMethod.run, ht] <;>
    simp [ht] at hd <;>
    simp [hd, hw]

/-- C10 witness: on `writeFailEnv` the Dist run errors with the write failure,
the target holds the updated state, and the hash file is untouched. -/
theorem dist_hash_write_failure_not_atomic_witness :
    ((InstallMethod.dist "d" Profile.default (some "hf") false false false none [] []).run
        writeFailEnv "/p" ⟨some (Content.other 2), none⟩).1 = Except.error "write failed"
    ∧ ((InstallMethod.dist "d" Profile.default (some "hf") false false false none [] []).run
        writeFailEnv "/p" ⟨some (Content.other 2), none⟩).2.1.target = some (Content.other 2)
    ∧ ((InstallMethod.dist "d" Profile.default (some "hf") false false false none [] []).run
        writeFailEnv "/p" ⟨some (Content.other 2), none⟩).2.1.hashFile = none :=
  dist_hash_write_failure_not_atomic writeFailEnv "d" Profile.default "hf"
    false false false none [] [] "/p" ⟨some (Content.other 2), none⟩ "newhash"
    (some (Content.other 2)) "write failed" rfl rfl

/-- C1: an Installer-strategy run is transactional: if it errors (in
particular, when any component install fails, with that error propagated), the
world is exactly the pre-run world — no staged component is visible; if it
succeeds it reports a change and the final world is the commit of a
transaction that staged every component the package exposes. -/
theorem installer_commit_atomicity (env : Env) (src p : String) (w : World) :
    (∀ e, ((InstallMethod.installer src).run env p w).1 = Except.error e →
        ((InstallMethod.installer src).run env p w).2.1 = w)
    ∧ (∀ b, ((InstallMethod.installer src).run env p w).1 = Except.ok b →
        b = true
        ∧ ∃ tx, installComponents env env.packageComponents Tx.new = Except.ok tx
            ∧ ((InstallMethod.installer src).run env p w).2.1 = tx.commit w)
    ∧ (∀ e, env.componentsOpen = Except.ok () → env.newFileReader = Except.ok () →
        env.newTarGzPackage = Except.ok () →
        installComponents env env.packageComponents Tx.new = Except.error e →
        ((InstallMethod.installer src).run env p w).1 = Except.error e
        ∧ ((InstallMethod.installer src).run env p w).2.1 = w) := by
  refine ⟨?_, ?_, ?_⟩
  · intro e he
    cases ht : w.target <;>
      cases ho : env.componentsOpen <;>
        cases hf2 : env.newFileReader <;>
          cases hg : env.newTarGzPackage <;>
            cases hI : installComponents env env.packageComponents Tx.new <;>
              simp_all [InstallMethod.run, tar_gz]
  · intro b hb
    cases ht : w.target <;>
      cases ho : env.componentsOpen <;>
        cases hf2 : env.newFileReader <;>
          cases hg : env.newTarGzPackage <;>
            cases hI : installComponents env env.packageComponents Tx.new <;>
              simp_all [InstallMethod.run, tar_gz, Tx.commit]
  · intro e ho hf2 hg hI
    cases ht : w.target <;> simp_all [InstallMethod.run, tar_gz]

/-- C1 witness: on `componentFailEnv` (second component fails) an Installer
run over a pre-existing target returns the component error and leaves the
pre-install world intact. -/
theorem installer_commit_atomicity_witness :
    ((InstallMethod.installer "dist.tar.gz").run componentFailEnv "/p"
        ⟨some (Content.other 7), some "oldhash"⟩).1 = Except.error "cargo failed"
    ∧ ((InstallMethod.installer "dist.tar.gz").run componentFailEnv "/p"
        ⟨some (Content.other 7), some "oldhash"⟩).2.1
      = ⟨some (Content.other 7), some "oldhash"⟩ :=
  (installer_commit_atomicity componentFailEnv "dist.tar.gz" "/p"
      ⟨some (Content.other 7), some "oldhash"⟩).2.2 "cargo failed"
    (by decide) (by decide) (by decide) (by decide)

/-- The component-install loop never consults the removal oracle: changing it
leaves the loop's outcome unchanged. -/
theorem installComponents_removeResult_irrel (env : Env) (r : Except Err Unit)
    (t2 : List Notif) (l : List String) (tx : Tx) :
    installComponents { env with removeResult := r, removeTrace := t2 } l tx
      = installComponents env l tx := by
  induction l generalizing tx with
  | nil => rfl
  | cons c cs ih =>
    simp only [installComponents]
    cases hp : env.pkgInstall c tx <;> simp [hp, ih]

/-- The tar.gz extraction never consults the removal oracle either. -/
theorem tar_gz_removeResult_irrel (env : Env) (r : Except Err Unit)
    (t2 : List Notif) (src p : String) (w : World) :
    tar_gz { env with removeResult := r, removeTrace := t2 } src p w
      = tar_gz env src p w := by
  simp only [tar_gz]
  rw [installComponents_removeResult_irrel]

/-- C3: when the target path exists, Copy and Link runs remove it first (on
removal success they behave exactly as a run on the cleared world; on removal
failure they return the removal error with the world untouched and the variant
never executed), while Dist and Installer runs never consult the removal
machinery at all. -/
theorem run_preclear_policy (env : Env) (src : String) (desc : String)
    (profile : Profile) (uh : Option String) (f a ex : Bool) (od : Option String)
    (cs ts : List String) (p : String) (w : World) (h : w.target.isSome = true) :
    (env.removeResult = Except.ok () →
      ((InstallMethod.copy src).run env p w).1
          = ((InstallMethod.copy src).run env p { w with target := none }).1
        ∧ ((InstallMethod.copy src).run env p w).2.1
          = ((InstallMethod.copy src).run env p { w with target := none }).2.1
        ∧ ((InstallMethod.link src).run env p w).1
          = ((InstallMethod.link src).run env p { w with target := none }).1
        ∧ ((InstallMethod.link src).run env p w).2.1
          = ((InstallMethod.link src).run env p { w with target := none }).2.1)
    ∧ (∀ e, env.removeResult = Except.error e →
        ((InstallMethod.copy src).run env p w).1 = Except.error e
        ∧ ((InstallMethod.copy src).run env p w).2.1 = w
        ∧ ((InstallMethod.link src).run env p w).1 = Except.error e
        ∧ ((InstallMethod.link src).run env p w).2.1 = w)
    ∧ (∀ (r : Except Err Unit) (t2 : List Notif),
        (InstallMethod.dist desc profile uh f a ex od cs ts).run
            { env with removeResult := r, removeTrace := t2 } p w
          = (InstallMethod.dist desc profile uh f a ex od cs ts).run env p w
        ∧ (InstallMethod.installer src).run
            { env with removeResult := r, removeTrace := t2 } p w
          = (InstallMethod.installer src).run env p w) := by
  obtain ⟨c, hc⟩ := Option.isSome_iff_exists.mp h
  refine ⟨?_, ?_, ?_⟩
  · intro hr
    cases hcp : env.copyResult <;> cases hl : env.linkResult <;>
      simp [InstallMethod.run, uninstall, remove_dir, hc, hr, hcp, hl]
  · intro e hr
    simp [InstallMethod.run, uninstall, remove_dir, hc, hr]
  · intro r t2
    have htg := tar_gz_removeResult_irrel env r t2 src p w
    constructor
    · rfl
    · simp [InstallMethod.run, htg]

/-- C3 witness: with a failing removal oracle, a Copy run on an existing
target returns the removal error and leaves the world untouched. -/
theorem run_preclear_policy_witness :
    ((InstallMethod.copy "srcdir").run removeFailEnv "/p" ⟨some (Content.other 1), none⟩).1
        = Except.error "remove failed"
    ∧ ((InstallMethod.copy "srcdir").run removeFailEnv "/p" ⟨some (Content.other 1), none⟩).2.1
        = ⟨some (Content.other 1), none⟩ :=
  ⟨((run_preclear_policy removeFailEnv "srcdir" "d" Profile.default none false false false
        none [] [] "/p" ⟨some (Content.other 1), none⟩ (by decide)).2.1 "remove failed"
      (by decide)).1,
   ((run_preclear_policy removeFailEnv "srcdir" "d" Profile.default none false false false
        none [] [] "/p" ⟨some (Content.other 1), none⟩ (by decide)).2.1 "remove failed"
      (by decide)).2.1⟩
